import Mathlib

/-!
Verification of the LabVIEW RSRC connector (type-descriptor) codec, a shallow
embedding of `LVconnector.py`.  Byte strings are `List Nat` (each element a
byte value), big-endian multi-byte integers are folded with `beInt`, and the
Python `BytesIO` cursor is modelled by `List.take`/`List.drop` on the
remaining-bytes list; a short read at end-of-stream yields the available
prefix, exactly like `BytesIO.read`.  Fallible operations (Python exceptions)
return `Option`.
-/

abbrev Bytes := List Nat

/-- Big-endian interpretation of a byte list, as in `int.from_bytes(b, byteorder=big)`.
An empty list yields 0, matching Python. -/
def beInt (l : Bytes) : Nat := l.foldl (fun a b => a * 256 + b) 0

/-- The two-byte big-endian encoding produced by `int(n).to_bytes(2, byteorder=big)`.
The source raises `OverflowError` for `n ≥ 65536`; callers guard with `n < 65536`. -/
def toBytes2 (n : Nat) : Bytes := [n / 256, n % 256]

/-- Modelled from the spec: `readVariableSizeField` lives in `LVmisc.py`, which is
not part of these sources (spec section 1 lists the variable-length integer reader
as an external collaborator).  Section 3 of the spec describes the record prologue
as carrying "the header's own 2-byte length field", so the reader is modelled as a
plain 2-byte big-endian field. -/
def readVariableSizeField (s : Bytes) : Nat × Bytes := (beInt (s.take 2), s.drop 2)

/-- `ConnectorObject.parseRSRCDataHeader`: variable-width length, then one flags
byte, then one type byte.  Returns `(obj_type, obj_flags, obj_len, rest)`. -/
def parseRSRCDataHeader (s : Bytes) : Nat × Nat × Nat × Bytes :=
  let v := readVariableSizeField s
  let oflags := beInt (v.2.take 1)
  let otype := beInt ((v.2.drop 1).take 1)
  (otype, oflags, v.1, (v.2.drop 1).drop 1)

/-- `(self.oflags & CONNECTOR_FLAGS.HasLabel.value) != 0` with `HasLabel = 1 << 6`. -/
def hasLabelFlagSet (oflags : Nat) : Bool := oflags &&& 64 != 0

/-- `whole_data.rstrip(b'\0')`. -/
def rstripZeros (s : Bytes) : Bytes := (s.reverse.dropWhile (fun b => b == 0)).reverse

/-- The per-byte test in the label scan: `(bt in b'\r\n') or (bt >= 32)`. -/
def isPrintable (bt : Nat) : Bool := bt == 13 || bt == 10 || decide (32 ≤ bt)

/-- The label-candidate test at position `i` of the stripped buffer:
`len(whole_data)-i == label_len+1` where `label_len = whole_data[i:i+1]`, and
every following byte passes `isPrintable`. -/
def acceptLabelAt (whole : Bytes) (i : Nat) : Bool :=
  (beInt ((whole.drop i).take 1) + 1 == whole.length - i)
    && (whole.drop (i+1)).all isPrintable

/-- The scan loop `for i in range(start, len(whole_data))` with `break` on the first
accepted position, written with structural fuel so it reduces by computation. -/
def labelScanLoop (whole : Bytes) : Nat → Nat → Option Nat
  | 0, _ => none
  | fuel+1, i =>
    if i < whole.length then
      if acceptLabelAt whole i then some i else labelScanLoop whole fuel (i+1)
    else none

/-- First accepted candidate position in `range(max(len-256, 0), len)`; `Nat`
subtraction gives the `max` clamp. -/
def labelScanPos (whole : Bytes) : Option Nat :=
  labelScanLoop whole whole.length (whole.length - 256)

/-- The stripped scan buffer of `parseRSRCDataFinish`: `bldata.read(1024*1024)`
then `rstrip(b'\0')`. -/
def wholeOf (rest : Bytes) : Bytes := rstripZeros (rest.take 1048576)

/-- `ConnectorObject.parseRSRCDataFinish` on the bytes remaining after the
variant fields.  Returns `(label, warnedNotFound, warnedNotAdjacent)`; the two
booleans model the two `eprint` warnings, which never abort parsing. -/
def parseRSRCDataFinish (oflags : Nat) (rest : Bytes) : Option Bytes × Bool × Bool :=
  if hasLabelFlagSet oflags then
    match labelScanPos (wholeOf rest) with
    | some i => (some ((wholeOf rest).drop (i+1)), false, decide (0 < i))
    | none => (some [], true, false)
  else (none, false, false)

/-- `ConnectorObject.prepareRSRCData` (the base, raw-data-backed encoder):
`raw_data[4:]` with the trailing label block removed by the same scan used when
parsing.  `data_buf = data_buf[:i]` truncates the unstripped buffer at the
found position. -/
def prepareRSRCDataBase (raw : Bytes) (oflags : Nat) : Bytes :=
  let data := raw.drop 4
  if hasLabelFlagSet oflags then
    match labelScanPos (rstripZeros data) with
    | some i => data.take i
    | none => data
  else data

/-- `ConnectorObject.prepareRSRCDataFinish`.  Returns the updated flags, the
(possibly truncated, in-place mutated) label field, and the emitted label
block.  `oflags &= ~HasLabel` is modelled as subtracting the masked bit. -/
def prepareRSRCDataFinish (oflags : Nat) (label : Option Bytes) :
    Nat × Option Bytes × Bytes :=
  match label with
  | some l =>
    let l2 := if l.length > 255 then l.take 255 else l
    let buf := l2.length :: l2
    let buf2 := if buf.length % 2 > 0 then buf ++ List.replicate (2 - buf.length % 2) 0 else buf
    (oflags ||| 64, some l2, buf2)
  | none => (oflags - (oflags &&& 64), none, [])

/-- The variant registry of `newConnectorObject`: one constructor kind per
`ConnectorObject` subclass; `generic` is the base class used for the Block and
Terminal categories and for every unmapped category. -/
inductive VariantKind where
  | void | bool | number | unit | blob | array | cluster | ref
  | numberPtr | function | typeDef | generic
deriving DecidableEq

/-- The second-tier category table of `newConnectorObject`, indexed by
`obj_type >> 4` (`CONNECTOR_MAIN_TYPE`); the dictionary `.get` default and the
Block/Terminal entries are all the plain `ConnectorObject`, here `generic`. -/
def mainTypeCtor (cat : Nat) : VariantKind :=
  match cat with
  | 0 => .number
  | 1 => .unit
  | 2 => .bool
  | 3 => .blob
  | 4 => .array
  | 5 => .cluster
  | 6 => .generic
  | 7 => .ref
  | 8 => .numberPtr
  | 15 => .generic
  | _ => .generic

/-- `newConnectorObject`: exact-tag table (Void `0x00`, Function `0xF0`,
TypeDef `0xF1`) first, then the category table on `obj_type >> 4`. -/
def newConnectorObject (obj_type : Nat) : VariantKind :=
  if obj_type == 0 then .void
  else if obj_type == 240 then .function
  else if obj_type == 241 then .typeDef
  else mainTypeCtor (obj_type >>> 4)

/-- One client reference (`SimpleNamespace` entries of `self.clients`).  For a
TypeDef the single client has `index = -1` and holds the embedded connector's
raw bytes; the `tmp3..tmp5` fields are the unknown per-client words of the
EventRegistration refnum. -/
structure CClient where
  index : Int
  flags : Nat
  nested : Option Bytes := none
  tmp3 : Option Nat := none
  tmp4 : Option Nat := none
  tmp5 : Option Nat := none
deriving DecidableEq

/-- One array dimension (`self.dimensions[i]`); all three branches of the
source assign `flags = flags_word >> 24` and `fixedSize = flags_word & 0x00FFFFFF`,
differing only in printed warnings. -/
structure CDim where
  flags : Nat
  fixedSize : Nat
deriving DecidableEq

/-- One enumeration/unit value (`self.values[i]`).  For the text form the label
bytes are kept; for the numeric form the integer is kept (the source renders it
as a hex text label) — `otype` is always the internal `EnumValue` pseudo-tag. -/
structure CEnumVal where
  labelBytes : Option Bytes
  intval : Option Nat
  size : Nat
  index : Nat
deriving DecidableEq

/-- A connector object: the base `ConnectorObject.__init__` state plus the
union of all variant-specific fields (Python instances grow attributes per
class; unset attributes are the `none`/`[]` defaults).  `fflags`/`pattern` are
the Function connector's `self.flags`/`self.pattern`; `fpadding` is the
Function `self.padding1` word while `padding1` is the Unit variant's padding
byte string. -/
structure Conn where
  index : Int
  oflags : Nat
  otype : Nat
  size : Nat
  raw_data : Bytes
  raw_data_updated : Bool := false
  parsed_data_updated : Bool := false
  label : Option Bytes := none
  prop1 : Option Nat := none
  clients : List CClient := []
  dimensions : List CDim := []
  values : List CEnumVal := []
  padding1 : Option Bytes := none
  fpadding : Option Nat := none
  fflags : Option Nat := none
  pattern : Option Nat := none
  reftype : Option Nat := none
  ctlflags : Option Nat := none
  valflags : Option Nat := none
  tmp1 : Option Nat := none
  clusterFmt : Option Nat := none
  flag1 : Option Nat := none
  tdLabels : List Bytes := []
deriving DecidableEq

/-- `ConnectorObjectFunction.parseRSRCData` body (after the header): client
count, client indices, `self.flags`, `self.pattern`, then the per-client flags
whose width is version gated (4-byte preceded by a 2-byte padding word at
format version ≥ 8, else 2-byte). -/
def parseFunctionFields (ver : Nat) (r : Conn) (s : Bytes) : Conn × Bytes :=
  let count := beInt (s.take 2)
  let s1 := s.drop 2
  let idxs := (List.range count).map (fun i => beInt ((s1.drop (2*i)).take 2))
  let s2 := s1.drop (2*count)
  let ff := beInt (s2.take 2)
  let pat := beInt ((s2.drop 2).take 2)
  let s3 := s2.drop 4
  if 8 ≤ ver then
    let pad := beInt (s3.take 2)
    let s4 := s3.drop 2
    let fl := (List.range count).map (fun i => beInt ((s4.drop (4*i)).take 4))
    ({ r with clients := List.zipWith (fun a b => { index := (a : Int), flags := b }) idxs fl,
              fflags := some ff, pattern := some pat, fpadding := some pad }, s4.drop (4*count))
  else
    let fl := (List.range count).map (fun i => beInt ((s3.drop (2*i)).take 2))
    ({ r with clients := List.zipWith (fun a b => { index := (a : Int), flags := b }) idxs fl,
              fflags := some ff, pattern := some pat }, s3.drop (2*count))

/-- The label-list loop of `ConnectorObjectTypeDef.parseRSRCData`: `count`
length-prefixed label strings. -/
def parseTDLabels : Nat → Bytes → List Bytes × Bytes
  | 0, s => ([], s)
  | n+1, s =>
    let L := beInt (s.take 1)
    let lab := (s.drop 1).take L
    let rest := parseTDLabels n ((s.drop 1).drop L)
    (lab :: rest.1, rest.2)

/-- `ConnectorObjectTypeDef.parseRSRCData` body: flag word, label count and
labels, then exactly one embedded nested connector whose raw bytes (its own
header length worth) become the single client with the `-1` sentinel index
(`parseRSRCNestedConnector` + `initWithRSRC`). -/
def parseTypeDefFields (r : Conn) (s : Bytes) : Conn × Bytes :=
  let f1 := beInt (s.take 4)
  let count := beInt ((s.drop 4).take 4)
  let td := parseTDLabels count (s.drop 8)
  let nlen := (readVariableSizeField td.2).1
  let nraw := td.2.take nlen
  ({ r with flag1 := some f1, tdLabels := td.1,
            clients := [{ index := -1, flags := 0, nested := some nraw }] }, td.2.drop nlen)

/-- `ConnectorObjectArray.parseRSRCData` body: dimension count, one 4-byte word
per dimension (decoded identically in all three source branches), then one
2-byte client index. -/
def parseArrayFields (r : Conn) (s : Bytes) : Conn × Bytes :=
  let nd := beInt (s.take 2)
  let dims := (List.range nd).map (fun i =>
    let w := beInt (((s.drop 2).drop (4*i)).take 4)
    ({ flags := w >>> 24, fixedSize := w &&& 16777215 } : CDim))
  let s1 := (s.drop 2).drop (4*nd)
  ({ r with dimensions := dims,
            clients := [{ index := (beInt (s1.take 2) : Int), flags := 0 }] }, s1.drop 2)

/-- The value loop of `ConnectorObjectUnit.parseRSRCData`: text-enum values are
length-prefixed labels; numeric values are 4-byte integers (rendered as hex
labels in the source). -/
def parseUnitValues (isText : Bool) : Nat → Nat → Bytes → List CEnumVal × Bytes
  | 0, _, s => ([], s)
  | n+1, i, s =>
    if isText then
      let L := beInt (s.take 1)
      let lab := (s.drop 1).take L
      let rest := parseUnitValues isText n (i+1) ((s.drop 1).drop L)
      ({ labelBytes := some lab, intval := none, size := L + 1, index := i } :: rest.1, rest.2)
    else
      let v := beInt (s.take 4)
      let rest := parseUnitValues isText n (i+1) (s.drop 4)
      ({ labelBytes := none, intval := some v, size := 4, index := i } :: rest.1, rest.2)

/-- `ConnectorObjectUnit.parseRSRCData` body: value count, values (text form if
`fullType()` is NumUInt8/16/32), an alignment byte when the cursor is at an odd
offset (`bldata.tell()` is 4 header bytes plus what was consumed), and a final
property byte. -/
def parseUnitFields (r : Conn) (s : Bytes) : Conn × Bytes :=
  let count := beInt (s.take 2)
  let isText := r.otype == 5 || r.otype == 6 || r.otype == 7
  let uv := parseUnitValues isText count 0 (s.drop 2)
  let pos := 4 + (s.length - uv.2.length)
  let padded := if pos % 2 != 0 then (some (uv.2.take 1), uv.2.drop 1) else (none, uv.2)
  ({ r with values := uv.1, padding1 := padded.1,
            prop1 := some (beInt (padded.2.take 1)) }, padded.2.drop 1)

/-- `ConnectorObjectRef.parseRSRCData` body: 2-byte refnum sub-kind, then the
sub-kind specific payload.  `parseRefQueue` and `parse_0Pre0Post` have the same
layout (client count plus 2-byte client indices); ControlRefnum adds a 4-byte
`ctlflags` word, DataValueRef a 1-byte `valflags`, and EventRegistration has a
leading 2-byte `tmp1` and three unknown 2-byte words per client.  Sub-kinds
without an entry decode no extra data. -/
def parseRefFields (r : Conn) (s : Bytes) : Conn × Bytes :=
  let rt := beInt (s.take 2)
  let s1 := s.drop 2
  let r1 := { r with reftype := some rt }
  if rt == 1 || rt == 18 || rt == 25 || rt == 17 || rt == 33 then
    let count := beInt (s1.take 2)
    let cls := (List.range count).map (fun i =>
      ({ index := (beInt (((s1.drop 2).drop (2*i)).take 2) : Int), flags := 0 } : CClient))
    ({ r1 with clients := cls }, (s1.drop 2).drop (2*count))
  else if rt == 8 then
    let count := beInt (s1.take 2)
    let cls := (List.range count).map (fun i =>
      ({ index := (beInt (((s1.drop 2).drop (2*i)).take 2) : Int), flags := 0 } : CClient))
    let s2 := (s1.drop 2).drop (2*count)
    ({ r1 with clients := cls, ctlflags := some (beInt (s2.take 4)) }, s2.drop 4)
  else if rt == 23 then
    let t1 := beInt (s1.take 2)
    let count := beInt ((s1.drop 2).take 2)
    let cls := (List.range count).map (fun i =>
      let base := (s1.drop 4).drop (8*i)
      ({ index := (beInt ((base.drop 6).take 2) : Int), flags := 0,
         tmp3 := some (beInt (base.take 2)), tmp4 := some (beInt ((base.drop 2).take 2)),
         tmp5 := some (beInt ((base.drop 4).take 2)) } : CClient))
    ({ r1 with tmp1 := some t1, clients := cls }, (s1.drop 4).drop (8*count))
  else if rt == 32 then
    let count := beInt (s1.take 2)
    let cls := (List.range count).map (fun i =>
      ({ index := (beInt (((s1.drop 2).drop (2*i)).take 2) : Int), flags := 0 } : CClient))
    let s2 := (s1.drop 2).drop (2*count)
    ({ r1 with clients := cls, valflags := some (beInt (s2.take 1)) }, s2.drop 1)
  else (r1, s1)

/-- `ConnectorObjectCluster.parseRSRCData` body: client list for the exact
Cluster tag `0x50`, a 2-byte format code for MeasureData `0x54`, nothing (raw
only) otherwise. -/
def parseClusterFields (r : Conn) (s : Bytes) : Conn × Bytes :=
  if r.otype == 80 then
    let count := beInt (s.take 2)
    let cls := (List.range count).map (fun i =>
      ({ index := (beInt (((s.drop 2).drop (2*i)).take 2) : Int), flags := 0 } : CClient))
    ({ r with clients := cls }, (s.drop 2).drop (2*count))
  else if r.otype == 84 then
    ({ r with clusterFmt := some (beInt (s.take 2)) }, s.drop 2)
  else (r, s)

/-- Dispatch of the variant-specific `parseRSRCData` bodies (the part between
the shared header and `parseRSRCDataFinish`).  Void/Bool, NumberPtr and the
generic base read nothing; Number reads its one property byte; Blob reads its
4-byte marker. -/
def parseVariantFields (ver : Nat) (r : Conn) (s : Bytes) : Conn × Bytes :=
  match newConnectorObject r.otype with
  | .void => (r, s)
  | .bool => (r, s)
  | .number => ({ r with prop1 := some (beInt (s.take 1)) }, s.drop 1)
  | .numberPtr => (r, s)
  | .blob => ({ r with prop1 := some (beInt (s.take 4)) }, s.drop 4)
  | .function => parseFunctionFields ver r s
  | .typeDef => parseTypeDefFields r s
  | .array => parseArrayFields r s
  | .unit => parseUnitFields r s
  | .ref => parseRefFields r s
  | .cluster => parseClusterFields r s
  | .generic => (r, s)

/-- One full `parseRSRCData` pass over a record's own raw bytes: header, the
variant body, then `parseRSRCDataFinish` (which clears `raw_data_updated`).
`objSize` is the `self.size` value, which `parseRSRCData` never changes. -/
def parseConnFields (ver : Nat) (idx : Int) (objSize : Nat) (raw : Bytes) : Conn :=
  let hd := parseRSRCDataHeader raw
  let base : Conn := { index := idx, oflags := hd.2.1, otype := hd.1,
                       size := objSize, raw_data := raw }
  let pv := parseVariantFields ver base hd.2.2.2
  let fin := parseRSRCDataFinish pv.1.oflags pv.2
  { pv.1 with label := fin.1, raw_data_updated := false, parsed_data_updated := false }

/-- `parse_from_bytes`: a cursor positioned at a record's start.  The container
reads the header to learn the record length, constructs the variant object and
hands it its `obj_len` bytes (`initWithRSRC`), then `parseData` runs
`parseRSRCData` — exactly the sequence of `parseRSRCNestedConnector`. -/
def parseFromBytes (ver : Nat) (idx : Int) (stream : Bytes) : Conn :=
  let objLen := (readVariableSizeField stream).1
  parseConnFields ver idx objLen (stream.take objLen)

/-- Variant dispatch of `prepareRSRCData`: only `ConnectorObjectVoid` (with
`ConnectorObjectBool`) and `ConnectorObjectNumber` override it; every other
variant inherits the raw-data-backed base.  `int(self.prop1).to_bytes(1)`
raises when `prop1` is unset or ≥ 256, hence `none` there. -/
def prepareRSRCDataOf (r : Conn) : Option Bytes :=
  match newConnectorObject r.otype with
  | .void => some []
  | .bool => some []
  | .number =>
    match r.prop1 with
    | some p => if p < 256 then some [p] else none
    | none => none
  | _ => some (prepareRSRCDataBase r.raw_data r.oflags)

/-- The `data_head` built by `updateData` (and by the binary branch of
`initWithXML`): 2-byte total length, flags byte, type byte. -/
def writeDataHead (oflags otype allLen : Nat) : Bytes := toBytes2 allLen ++ [oflags, otype]

/-- `encode_to_bytes` = `ConnectorObject.updateData`: variant body (computed
with the pre-update flags), label block (which updates the flags), then the
recomputed header.  `none` models the `to_bytes` `OverflowError`s on an
oversized total length, flags or type byte. -/
def encodeBytes (r : Conn) : Option Bytes :=
  match prepareRSRCDataOf r with
  | none => none
  | some data =>
    let fin := prepareRSRCDataFinish r.oflags r.label
    let total := data.length + fin.2.2.length + 4
    if total < 65536 ∧ fin.1 < 256 ∧ r.otype < 256 then
      some (writeDataHead fin.1 r.otype total ++ data ++ fin.2.2)
    else none

/-- The label-block length used by `expectedRSRCSize` in the Void and Number
variants: `1 + len(label)` rounded up to an even count. -/
def labelBlockLen (label : Option Bytes) : Nat :=
  match label with
  | none => 0
  | some l =>
    let n := 1 + l.length
    if n % 2 > 0 then n + (2 - n % 2) else n

/-- `ConnectorObjectFunction.checkSanity`'s expected whole size: count word,
client indices, flags+pattern, and version-gated per-client flags.
`isGreaterOrEqVersion(ver, major=8)` is modelled from the spec as `8 ≤ ver`. -/
def functionExpSize (ver : Nat) (nclients : Nat) : Nat :=
  if 8 ≤ ver then 4 + 2 + 2 * nclients + 4 + 2 + 4 * nclients
  else 4 + 2 + 2 * nclients + 4 + 2 * nclients

/-- `ConnectorObjectArray.checkSanity`.  The `self.dimensions[0]` access is
unconditional, so an empty dimension list raises `IndexError` (modelled as
`none`) regardless of the earlier checks. -/
def arrayCheckSanity (r : Conn) : Option Bool :=
  match r.dimensions with
  | [] => none
  | d0 :: _ =>
    some ((decide (r.dimensions.length ≤ 64)) && (r.clients.length == 1)
      && (d0.flags &&& 128 != 0) && r.clients.all (fun c => decide (c.index < r.index)))

/-- `ConnectorObjectUnit.checkSanity`: padding byte (when present) must be a
single zero byte, the trailing property must be 0 (an unset `prop1` compares
unequal to 0 in Python, hence invalid), and at least one value. -/
def unitCheckSanity (r : Conn) : Bool :=
  (match r.padding1 with
   | some p => p == [0]
   | none => true)
  && (r.prop1 == some 0) && (decide (1 ≤ r.values.length))

/-- `ConnectorObjectRef.checkSanity`: the count bound per sub-kind (`tmp1` is
only read after an EventRegistration parse set it; an impossible state raises,
hence `none`), then the forward-reference scan over all clients. -/
def refCheckSanity (r : Conn) : Option Bool :=
  let fwd := r.clients.all (fun c => decide (c.index < r.index))
  match r.reftype with
  | some rt =>
    if rt == 1 || rt == 18 || rt == 25 || rt == 8 || rt == 17 || rt == 32 then
      some ((r.clients.length ≤ 1 : Bool) && fwd)
    else if rt == 23 then
      match r.tmp1 with
      | some t1 => some ((t1 == 0) && (decide (1 ≤ r.clients.length)) && fwd)
      | none => none
    else some fwd
  | none => some fwd

/-- `ConnectorObjectCluster.checkSanity`: a client-count bound for the exact
Cluster tag, a format-code bound for MeasureData (raising when `clusterFmt`
was never parsed), and no check at all otherwise.  There is no
forward-reference scan here. -/
def clusterCheckSanity (r : Conn) : Option Bool :=
  if r.otype == 80 then some (decide (r.clients.length ≤ 500))
  else if r.otype == 84 then
    match r.clusterFmt with
    | some f => some (decide (f ≤ 127))
    | none => none
  else some true

/-- `validate()` = `checkSanity` dispatched per variant.  `none` models a
raised exception; the base class (generic/Block/Terminal) always returns
`True`.  TypeDef does not override `checkSanity`. -/
def checkSanity (ver : Nat) (r : Conn) : Option Bool :=
  match newConnectorObject r.otype with
  | .void => some (r.raw_data.length == 4 + labelBlockLen r.label)
  | .bool => some (r.raw_data.length == 4 + labelBlockLen r.label)
  | .number => some ((r.prop1 == some 0) && (r.raw_data.length == 5 + labelBlockLen r.label))
  | .numberPtr => some (decide (4 ≤ r.raw_data.length))
  | .blob => some ((r.prop1 == some 4294967295) && decide (4 ≤ r.raw_data.length))
  | .function => some ((decide (r.clients.length ≤ 125))
      && (r.raw_data.length == functionExpSize ver r.clients.length))
  | .typeDef => some true
  | .array => arrayCheckSanity r
  | .unit => some (unitCheckSanity r)
  | .ref => refCheckSanity r
  | .cluster => clusterCheckSanity r
  | .generic => some true

/-- `needParseData` per variant (the base uses the two dirty flags). -/
def needParseData (r : Conn) : Bool :=
  match newConnectorObject r.otype with
  | .numberPtr => true
  | .blob => r.prop1 == none
  | .function => r.clients.length == 0
  | .typeDef => r.flag1 == none
  | .array => r.clients.length == 0
  | .unit => r.prop1 == none
  | .ref => r.reftype == none
  | .cluster =>
    if r.otype == 80 then r.clients.length == 0
    else if r.otype == 84 then r.clusterFmt == none
    else true
  | _ => r.raw_data_updated || r.parsed_data_updated

/-- `parseData` with `vi.dataSource = "rsrc"`: re-parse from the raw bytes when
needed (`parseXMLData` merely clears the parsed-data flag). -/
def parseData (ver : Nat) (r : Conn) : Conn :=
  if needParseData r then
    if r.raw_data_updated then parseConnFields ver r.index r.size r.raw_data
    else if r.parsed_data_updated then { r with parsed_data_updated := false }
    else parseConnFields ver r.index r.size r.raw_data
  else r

/-- The `Format` attribute chosen by `exportXML`: the Void/Bool and Number
overrides always write `inline`; the inherited base writes `inline` only when
`self.size ≤ 4` and otherwise `bin` with a side file. -/
def exportXMLFormat (ver : Nat) (r : Conn) : String :=
  match newConnectorObject r.otype with
  | .void => "inline"
  | .bool => "inline"
  | .number => "inline"
  | _ => if (parseData ver r).size ≤ 4 then "inline" else "bin"

/-- The bytes the base `exportXML` writes to the side `.bin` file: everything
after the 4-byte header (`bldata.read(4)` then `bldata.read()`). -/
def exportXMLBinData (ver : Nat) (r : Conn) : Bytes := (parseData ver r).raw_data.drop 4

/-- `mainType()`: tag 0 is the internal Void category `0x100`; otherwise the
upper nibble (negative internal pseudo-tags never appear on the wire). -/
def mainType (otype : Nat) : Nat := if otype == 0 then 256 else otype >>> 4

/-- `isNumber()`: Number or Unit main category, or the FixedPoint full type. -/
def isNumberConn (r : Conn) : Bool :=
  mainType r.otype == 0 || mainType r.otype == 1 || r.otype == 95

/-- `isString()`: exactly the String full type. -/
def isStringConn (r : Conn) : Bool := r.otype == 48

/-- `isPath()`: exactly the Path full type. -/
def isPathConn (r : Conn) : Bool := r.otype == 50

/-- `hasClients()`. -/
def hasClientsConn (r : Conn) : Bool := decide (0 < r.clients.length)

/-- The connector object a nested (`index = -1`) client holds: constructed by
`parseRSRCNestedConnector` via `newConnectorObject` + `initWithRSRC`, so it
carries only the header fields and its raw bytes. -/
def nestedConn (nb : Bytes) : Conn :=
  { index := -1, oflags := beInt ((nb.drop 2).take 1), otype := beInt ((nb.drop 3).take 1),
    size := (readVariableSizeField nb).1, raw_data := nb, raw_data_updated := true }

/-- `clientsEnumerate` against a present shared table (`VCTP.content`); a
missing table raises `LookupError` outside this model.  An out-of-range index
raises (`none`). -/
def clientsEnumerate (table : List Conn) (r : Conn) : Option (List Conn) :=
  r.clients.mapM (fun c =>
    if c.index == -1 then c.nested.map nestedConn
    else if 0 ≤ c.index then table.get? c.index.toNat
    else none)

/-- The five buckets of `getClientConnectorsByType`. -/
structure CBuckets where
  number : List Conn
  path : List Conn
  string : List Conn
  compound : List Conn
  other : List Conn
deriving DecidableEq

def emptyBuckets : CBuckets := ⟨[], [], [], [], []⟩

/-- `out_lists[k].extend(sub_lists[k])` over all five keys. -/
def mergeBuckets (a b : CBuckets) : CBuckets :=
  ⟨a.number ++ b.number, a.path ++ b.path, a.string ++ b.string,
   a.compound ++ b.compound, a.other ++ b.other⟩

/-- The `if isNumber / elif isPath / elif isString / elif hasClients / else`
chain appending the resolved client to one bucket. -/
def placeConn (acc : CBuckets) (c : Conn) : CBuckets :=
  if isNumberConn c then { acc with number := acc.number ++ [c] }
  else if isPathConn c then { acc with path := acc.path ++ [c] }
  else if isStringConn c then { acc with string := acc.string ++ [c] }
  else if hasClientsConn c then { acc with compound := acc.compound ++ [c] }
  else { acc with other := acc.other ++ [c] }

/-- `classify_clients_recursive` = `getClientConnectorsByType`: parse, sanity
warn (a raised sanity check propagates), place each client in traversal order,
and recurse into clients that themselves have clients, extending the parent's
buckets.  The source recurses unboundedly; structural fuel makes the model
total, `none` standing for non-termination or a raised lookup/sanity error. -/
def getClientConnectorsByType (ver : Nat) (table : List Conn) :
    Nat → Conn → Option CBuckets
  | 0, _ => none
  | fuel+1, r0 =>
    let r := parseData ver r0
    match clientsEnumerate table r with
    | none => none
    | some conns =>
      conns.foldlM (fun acc c0 =>
        let c := parseData ver c0
        match checkSanity ver c with
        | none => none
        | some _ =>
          let acc2 := placeConn acc c
          if hasClientsConn c then
            match getClientConnectorsByType ver table fuel c with
            | none => none
            | some sub => some (mergeBuckets acc2 sub)
          else some acc2) emptyBuckets

/-! ### Helper lemmas -/

lemma beInt_one (x : Nat) : beInt [x] = x := by simp [beInt]

lemma beInt_two (a b : Nat) : beInt [a, b] = a * 256 + b := by simp [beInt]

lemma beInt_toBytes2 (n : Nat) : beInt (toBytes2 n) = n := by
  simp [toBytes2, beInt]; omega

lemma and64_eq (x : Nat) : x &&& 64 = 64 * (x / 64 % 2) := by
  have h := Nat.and_two_pow x 6
  rw [Nat.testBit_to_div_mod] at h
  norm_num at h
  rw [h]
  rcases Nat.mod_two_eq_zero_or_one (x / 64) with h2 | h2 <;> simp [h2]

lemma clear64_bit (x : Nat) : (x - (x &&& 64)) &&& 64 = 0 := by
  rw [and64_eq, and64_eq]; omega

lemma clearLabel_not_set (x : Nat) : hasLabelFlagSet (x - (x &&& 64)) = false := by
  simp [hasLabelFlagSet, clear64_bit]

lemma hasLabel_false_and (x : Nat) (h : hasLabelFlagSet x = false) : x &&& 64 = 0 := by
  simpa [hasLabelFlagSet] using h

lemma head_take2 (f t n : Nat) (data : Bytes) :
    (writeDataHead f t n ++ data).take 2 = toBytes2 n := by
  simp [writeDataHead, toBytes2]

lemma head_drop2 (f t n : Nat) (data : Bytes) :
    (writeDataHead f t n ++ data).drop 2 = f :: t :: data := by
  simp [writeDataHead, toBytes2]

lemma head_drop4 (f t n : Nat) (data : Bytes) :
    (writeDataHead f t n ++ data).drop 4 = data := by
  simp [writeDataHead, toBytes2]

lemma head_len (f t n : Nat) (data : Bytes) :
    (writeDataHead f t n ++ data).length = data.length + 4 := by
  simp [writeDataHead, toBytes2]
  try omega

lemma pvf_raw (ver : Nat) (r : Conn) (s : Bytes) :
    ((parseVariantFields ver r s).1).raw_data = r.raw_data := by
  cases h : newConnectorObject r.otype <;>
    simp only [parseVariantFields, h, parseFunctionFields, parseTypeDefFields,
      parseArrayFields, parseUnitFields, parseRefFields, parseClusterFields] <;>
    (repeat' split) <;> rfl

lemma pvf_oflags (ver : Nat) (r : Conn) (s : Bytes) :
    ((parseVariantFields ver r s).1).oflags = r.oflags := by
  cases h : newConnectorObject r.otype <;>
    simp only [parseVariantFields, h, parseFunctionFields, parseTypeDefFields,
      parseArrayFields, parseUnitFields, parseRefFields, parseClusterFields] <;>
    (repeat' split) <;> rfl

lemma pvf_otype (ver : Nat) (r : Conn) (s : Bytes) :
    ((parseVariantFields ver r s).1).otype = r.otype := by
  cases h : newConnectorObject r.otype <;>
    simp only [parseVariantFields, h, parseFunctionFields, parseTypeDefFields,
      parseArrayFields, parseUnitFields, parseRefFields, parseClusterFields] <;>
    (repeat' split) <;> rfl

lemma pvf_index (ver : Nat) (r : Conn) (s : Bytes) :
    ((parseVariantFields ver r s).1).index = r.index := by
  cases h : newConnectorObject r.otype <;>
    simp only [parseVariantFields, h, parseFunctionFields, parseTypeDefFields,
      parseArrayFields, parseUnitFields, parseRefFields, parseClusterFields] <;>
    (repeat' split) <;> rfl

lemma pvf_size (ver : Nat) (r : Conn) (s : Bytes) :
    ((parseVariantFields ver r s).1).size = r.size := by
  cases h : newConnectorObject r.otype <;>
    simp only [parseVariantFields, h, parseFunctionFields, parseTypeDefFields,
      parseArrayFields, parseUnitFields, parseRefFields, parseClusterFields] <;>
    (repeat' split) <;> rfl

lemma pvf_prop1_number (ver : Nat) (r : Conn) (s : Bytes)
    (h : newConnectorObject r.otype = .number) :
    ((parseVariantFields ver r s).1).prop1 = some (beInt (s.take 1)) := by
  simp [parseVariantFields, h]

lemma parseConnFields_raw_data (ver : Nat) (idx : Int) (sz : Nat) (raw : Bytes) :
    (parseConnFields ver idx sz raw).raw_data = raw := by
  simp [parseConnFields, pvf_raw]

lemma parseConnFields_size (ver : Nat) (idx : Int) (sz : Nat) (raw : Bytes) :
    (parseConnFields ver idx sz raw).size = sz := by
  simp [parseConnFields, pvf_size]

lemma parseConnFields_oflags (ver : Nat) (idx : Int) (sz : Nat) (raw : Bytes) :
    (parseConnFields ver idx sz raw).oflags = beInt ((raw.drop 2).take 1) := by
  simp [parseConnFields, parseRSRCDataHeader, readVariableSizeField, pvf_oflags]

lemma parseConnFields_otype (ver : Nat) (idx : Int) (sz : Nat) (raw : Bytes) :
    (parseConnFields ver idx sz raw).otype = beInt (((raw.drop 2).drop 1).take 1) := by
  simp [parseConnFields, parseRSRCDataHeader, readVariableSizeField, pvf_otype]

lemma parseConnFields_label_clear (ver : Nat) (idx : Int) (sz : Nat) (raw : Bytes)
    (h : hasLabelFlagSet (beInt ((raw.drop 2).take 1)) = false) :
    (parseConnFields ver idx sz raw).label = none := by
  simp [parseConnFields, parseRSRCDataHeader, readVariableSizeField, pvf_oflags,
    parseRSRCDataFinish, h]

lemma parseConnFields_prop1_number (ver : Nat) (idx : Int) (sz : Nat) (raw : Bytes)
    (h : newConnectorObject (beInt (((raw.drop 2).drop 1).take 1)) = .number) :
    (parseConnFields ver idx sz raw).prop1
      = some (beInt ((((raw.drop 2).drop 1).drop 1).take 1)) := by
  simp only [parseConnFields, parseRSRCDataHeader, readVariableSizeField]
  rw [pvf_prop1_number]
  exact h

lemma parseFromBytes_head (ver : Nat) (idx : Int) (f t : Nat) (data : Bytes) :
    parseFromBytes ver idx (writeDataHead f t (data.length + 4) ++ data)
      = parseConnFields ver idx (data.length + 4)
          (writeDataHead f t (data.length + 4) ++ data) := by
  have h2 : (readVariableSizeField (writeDataHead f t (data.length + 4) ++ data)).1
      = data.length + 4 := by
    simp only [readVariableSizeField, head_take2, beInt_toBytes2]
  have h3 : (writeDataHead f t (data.length + 4) ++ data).take (data.length + 4)
      = writeDataHead f t (data.length + 4) ++ data :=
    List.take_of_length_le (le_of_eq (head_len f t _ data))
  simp only [parseFromBytes, h2, h3]

lemma labelScanLoop_some_spec (whole : Bytes) :
    ∀ fuel i j, labelScanLoop whole fuel i = some j →
      i ≤ j ∧ j < whole.length ∧ acceptLabelAt whole j = true
        ∧ ∀ m, i ≤ m → m < j → acceptLabelAt whole m = false := by
  intro fuel
  induction fuel with
  | zero => intro i j h; cases h
  | succ n ih =>
    intro i j h
    unfold labelScanLoop at h
    by_cases h1 : i < whole.length
    · rw [if_pos h1] at h
      by_cases h2 : acceptLabelAt whole i = true
      · simp only [h2, if_true] at h
        obtain rfl : i = j := Option.some.inj h
        exact ⟨le_refl i, h1, h2, fun m hm1 hm2 => absurd hm2 (by omega)⟩
      · rw [if_neg (by simpa using h2)] at h
        obtain ⟨ha, hb, hc, hd⟩ := ih (i+1) j h
        refine ⟨by omega, hb, hc, fun m hm1 hm2 => ?_⟩
        by_cases hm : m = i
        · subst hm
          simp only [Bool.not_eq_true] at h2
          exact h2
        · exact hd m (by omega) hm2
    · rw [if_neg h1] at h; cases h

lemma labelScanLoop_none_spec (whole : Bytes) :
    ∀ fuel i, labelScanLoop whole fuel i = none → whole.length ≤ i + fuel →
      ∀ m, i ≤ m → m < whole.length → acceptLabelAt whole m = false := by
  intro fuel
  induction fuel with
  | zero => intro i _ hb m hm1 hm2; omega
  | succ n ih =>
    intro i h hb m hm1 hm2
    unfold labelScanLoop at h
    by_cases h1 : i < whole.length
    · rw [if_pos h1] at h
      by_cases h2 : acceptLabelAt whole i = true
      · simp [h2] at h
      · rw [if_neg (by simpa using h2)] at h
        by_cases hm : m = i
        · subst hm
          simp only [Bool.not_eq_true] at h2
          exact h2
        · exact ih (i+1) h (by omega) m (by omega) hm2
    · omega

/-- Claim C2 counterexample: a Cluster record at shared-table index 7 whose
decoded client index list is `[9]` still has `checkSanity` return true — the
Cluster variant performs no forward-reference scan, so the claimed
`validate() = false` is wrong; the record decodes fine. -/
theorem c2_cluster_forward_ref_counterexample :
    (parseFromBytes 7 7 [0, 8, 0, 80, 0, 1, 0, 9]).clients.map (fun c => c.index) = [9]
    ∧ checkSanity 7 (parseFromBytes 7 7 [0, 8, 0, 80, 0, 1, 0, 9]) = some true := by
  decide

/-- Claim C2 amended: for a Cluster record at index 7, both the client list
`[2, 5]` and the forward-referencing client list `[9]` decode successfully and
`checkSanity` returns true in both cases — `ConnectorObjectCluster.checkSanity`
only bounds the client count by 500 and has no forward-reference check (that
scan exists only in the Array and Ref variants). -/
theorem c2_cluster_no_forward_ref_check :
    ((parseFromBytes 7 7 [0, 10, 0, 80, 0, 2, 0, 2, 0, 5]).clients.map (fun c => c.index) = [2, 5]
      ∧ checkSanity 7 (parseFromBytes 7 7 [0, 10, 0, 80, 0, 2, 0, 2, 0, 5]) = some true)
    ∧ ((parseFromBytes 7 7 [0, 8, 0, 80, 0, 1, 0, 9]).clients.map (fun c => c.index) = [9]
      ∧ checkSanity 7 (parseFromBytes 7 7 [0, 8, 0, 80, 0, 1, 0, 9]) = some true)
    ∧ (∀ r : Conn, r.otype = 80 → (checkSanity 7 r = some true ↔ r.clients.length ≤ 500)) := by
  refine ⟨by decide, by decide, fun r hr => ?_⟩
  simp [checkSanity, hr, show newConnectorObject 80 = VariantKind.cluster from by decide,
    clusterCheckSanity]

/-- Claim C3 counterexample: a Number record has total encoded size 5 (> 4
bytes), yet `ConnectorObjectNumber.exportXML` emits it in inline form — the
"inline exactly when size ≤ 4" rule does not hold for every record. -/
theorem c3_number_inline_counterexample :
    4 < (parseFromBytes 7 1 [0, 5, 0, 1, 0]).size
    ∧ exportXMLFormat 7 (parseFromBytes 7 1 [0, 5, 0, 1, 0]) = "inline" := by
  decide

/-- Claim C3 amended: the size rule holds for the inherited base `exportXML`
(every variant except Void/Bool and Number): such a record is emitted inline
exactly when its total encoded size is at most 4, and otherwise in binary
sidecar form with the post-header raw body as the side-file content; the
Void/Bool and Number overrides always emit inline regardless of size. -/
theorem c3_export_format_amended (ver : Nat) (idx : Int) (b : Bytes)
    (hlen : beInt (b.take 2) = b.length)
    (hk1 : newConnectorObject (beInt (((b.drop 2).drop 1).take 1)) ≠ .void)
    (hk2 : newConnectorObject (beInt (((b.drop 2).drop 1).take 1)) ≠ .bool)
    (hk3 : newConnectorObject (beInt (((b.drop 2).drop 1).take 1)) ≠ .number) :
    (exportXMLFormat ver (parseFromBytes ver idx b) = "inline" ↔ b.length ≤ 4)
    ∧ (4 < b.length →
        exportXMLFormat ver (parseFromBytes ver idx b) = "bin"
        ∧ exportXMLBinData ver (parseFromBytes ver idx b) = b.drop 4)
    ∧ (∀ r : Conn,
        (newConnectorObject r.otype = .void ∨ newConnectorObject r.otype = .bool
          ∨ newConnectorObject r.otype = .number) →
        exportXMLFormat ver r = "inline") := by
  have hparse : parseFromBytes ver idx b = parseConnFields ver idx b.length b := by
    simp only [parseFromBytes, readVariableSizeField, hlen, List.take_length]
  have hot : (parseFromBytes ver idx b).otype = beInt (((b.drop 2).drop 1).take 1) := by
    rw [hparse, parseConnFields_otype]
  have hsz : ∀ r2 : Conn, (parseData ver r2).size = r2.size := by
    intro r2
    unfold parseData
    repeat' split
    all_goals simp [parseConnFields_size]
  have hraw : ∀ r2 : Conn, (parseData ver r2).raw_data = r2.raw_data := by
    intro r2
    unfold parseData
    repeat' split
    all_goals simp [parseConnFields_raw_data]
  have hszb : (parseData ver (parseFromBytes ver idx b)).size = b.length := by
    rw [hsz, hparse, parseConnFields_size]
  have hfmt : exportXMLFormat ver (parseFromBytes ver idx b)
      = if b.length ≤ 4 then "inline" else "bin" := by
    unfold exportXMLFormat
    rw [hszb]
    cases hkk : newConnectorObject (parseFromBytes ver idx b).otype
    all_goals (first
      | rfl
      | (exfalso; rw [hot] at hkk
         first
           | exact hk1 hkk
           | exact hk2 hkk
           | exact hk3 hkk))
  refine ⟨?_, fun h4 => ⟨?_, ?_⟩, fun r hin => ?_⟩
  · rw [hfmt]
    by_cases hc : b.length ≤ 4 <;> simp [hc]
  · rw [hfmt, if_neg (by omega)]
  · unfold exportXMLBinData
    rw [hraw, hparse, parseConnFields_raw_data]
  · unfold exportXMLFormat
    rcases hin with h | h | h <;> rw [h]

/-- Claim C3 amended, witness: a Cluster record of total size 6 exports in
binary sidecar form with body bytes `[0, 1]`, as the amended theorem states. -/
theorem c3_export_format_amended_witness :
    exportXMLFormat 7 (parseFromBytes 7 2 [0, 6, 0, 80, 0, 1]) = "bin"
    ∧ exportXMLBinData 7 (parseFromBytes 7 2 [0, 6, 0, 80, 0, 1]) = [0, 1] :=
  ((c3_export_format_amended 7 2 [0, 6, 0, 80, 0, 1] (by decide)
    (by decide) (by decide) (by decide)).2.1 (by decide))

/-- Claim C4: the header written by the encode path (`updateData`, and the
binary branch of `initWithXML`) — length field, then flags byte, then type
byte — reads back through `parseRSRCDataHeader` as exactly the same
`(type_tag, flags, length)` triple, with the cursor left at the body.  The
length reader is spec-modelled as the 2-byte big-endian field; the written
length is the whole-record length, body plus the 4 header bytes. -/
theorem c4_header_roundtrip (oflags otype bodyLen : Nat) (extra : Bytes)
    (h1 : oflags < 256) (h2 : otype < 256) (h3 : bodyLen + 4 < 65536) :
    parseRSRCDataHeader (writeDataHead oflags otype (bodyLen + 4) ++ extra)
      = (otype, oflags, bodyLen + 4, extra) := by
  simp only [parseRSRCDataHeader, readVariableSizeField, head_take2, head_drop2,
    beInt_toBytes2]
  simp [beInt_one]

/-- Claim C4 witness at flags `0x40`, tag `0x50`, body length 6. -/
theorem c4_header_roundtrip_witness :
    parseRSRCDataHeader (writeDataHead 64 80 (6 + 4) ++ [1, 2, 3, 4, 5, 6])
      = (80, 64, 6 + 4, [1, 2, 3, 4, 5, 6]) :=
  c4_header_roundtrip 64 80 6 [1, 2, 3, 4, 5, 6] (by decide) (by decide) (by decide)

/-- Claim C5: a Function record with 2 clients under format version 7 decodes
per-client flags as 2-byte fields (here `0xAABB = 43707` and `0xCCDD = 52445`)
and passes `checkSanity`; the identical byte string reinterpreted under
version 8 fails `checkSanity` on the size mismatch, and the two expected
sizes differ for every client count. -/
theorem c5_function_version_gating (ver n : Nat) (h : 8 ≤ ver) :
    functionExpSize 7 n ≠ functionExpSize ver n
    ∧ (parseFromBytes 7 3 [0, 18, 0, 240, 0, 2, 0, 1, 0, 2, 0, 0, 0, 0, 170, 187, 204, 221]).clients
        = [⟨1, 43707, none, none, none, none⟩, ⟨2, 52445, none, none, none, none⟩]
    ∧ checkSanity 7 (parseFromBytes 7 3 [0, 18, 0, 240, 0, 2, 0, 1, 0, 2, 0, 0, 0, 0, 170, 187, 204, 221]) = some true
    ∧ checkSanity 8 (parseFromBytes 8 3 [0, 18, 0, 240, 0, 2, 0, 1, 0, 2, 0, 0, 0, 0, 170, 187, 204, 221]) = some false := by
  refine ⟨?_, by decide, by decide, by decide⟩
  simp only [functionExpSize, if_pos h, if_neg (by omega : ¬ (8 ≤ 7))]
  omega

/-- Claim C5 witness at version 8 and client count 2. -/
theorem c5_function_version_gating_witness :
    functionExpSize 7 2 ≠ functionExpSize 8 2 :=
  (c5_function_version_gating 8 2 (by decide)).1

/-- Claim C9: when a record's label exceeds 255 bytes, `prepareRSRCDataFinish`
sets the HasLabel flag, truncates the stored label field in place to its first
255 bytes, and emits a length byte of 255 followed by those 255 bytes (the
256-byte block is already even, so no padding). -/
theorem c9_label_truncation (oflags : Nat) (l : Bytes) (h : 255 < l.length) :
    prepareRSRCDataFinish oflags (some l)
      = (oflags ||| 64, some (l.take 255), 255 :: l.take 255) := by
  have hmin : min 255 l.length = 255 := by omega
  simp [prepareRSRCDataFinish, h, hmin]

/-- Claim C9 witness: a 256-byte label of letter `A`. -/
theorem c9_label_truncation_witness :
    prepareRSRCDataFinish 0 (some (List.replicate 256 65))
      = (0 ||| 64, some ((List.replicate 256 65).take 255),
         255 :: (List.replicate 256 65).take 255) :=
  c9_label_truncation 0 (List.replicate 256 65) (by rw [List.length_replicate]; omega)

/-- Claim C10: `ConnectorObjectArray.checkSanity` on a record parsed from a
wire dimension count of 0 raises `IndexError` at the `dimensions[0]` access
(modelled as `none`), even though decoding itself succeeded; with at least one
decoded dimension the check always returns a boolean. -/
theorem c10_array_sanity_partiality (r : Conn) (h : r.dimensions ≠ []) :
    (checkSanity 7 (parseFromBytes 7 5 [0, 8, 0, 64, 0, 0, 0, 1]) = none
      ∧ (parseFromBytes 7 5 [0, 8, 0, 64, 0, 0, 0, 1]).dimensions = []
      ∧ (parseFromBytes 7 5 [0, 8, 0, 64, 0, 0, 0, 1]).clients = [⟨1, 0, none, none, none, none⟩])
    ∧ (arrayCheckSanity r).isSome = true := by
  refine ⟨by decide, ?_⟩
  cases hd : r.dimensions with
  | nil => exact absurd hd h
  | cons d0 rest => simp [arrayCheckSanity, hd]

/-- A concrete well-formed Array record used to witness claim C10. -/
def arrayWitnessConn : Conn :=
  { index := 5, oflags := 0, otype := 64, size := 12,
    raw_data := [0, 12, 0, 64, 0, 1, 128, 0, 0, 3, 0, 1],
    dimensions := [⟨128, 3⟩], clients := [⟨1, 0, none, none, none, none⟩] }

/-- Claim C10 witness: an Array record with one decoded dimension. -/
theorem c10_array_sanity_partiality_witness :
    arrayWitnessConn.dimensions ≠ []
    ∧ (arrayCheckSanity arrayWitnessConn).isSome = true :=
  ⟨by decide, (c10_array_sanity_partiality arrayWitnessConn (by decide)).2⟩

/-- Claim C6: variant selection consults the exact-tag table (Void `0x00`,
Function `0xF0`, TypeDef `0xF1`) before the category table — `0xF0` would land
in the generic Terminal category by nibble alone — and a tag whose category
(9 through 14) has no registered variant falls back to the generic opaque
record, whose parse keeps the raw bytes untouched and whose `checkSanity`
always returns true. -/
theorem c6_variant_dispatch (t ver : Nat) (idx : Int) (b : Bytes)
    (h9 : 9 ≤ t >>> 4) (h14 : t >>> 4 ≤ 14)
    (hb : beInt (((b.drop 2).drop 1).take 1) = t)
    (hlen : beInt (b.take 2) = b.length) :
    newConnectorObject t = .generic
    ∧ newConnectorObject 0 = .void
    ∧ newConnectorObject 240 = .function
    ∧ newConnectorObject 241 = .typeDef
    ∧ mainTypeCtor (240 >>> 4) = .generic
    ∧ (parseFromBytes ver idx b).raw_data = b
    ∧ (parseFromBytes ver idx b).otype = t
    ∧ checkSanity ver (parseFromBytes ver idx b) = some true := by
  rw [Nat.shiftRight_eq_div_pow] at h9 h14
  norm_num at h9 h14
  have hgen : newConnectorObject t = .generic := by
    unfold newConnectorObject
    rw [if_neg (by simp only [beq_iff_eq]; omega : ¬ (t == 0) = true)]
    rw [if_neg (by simp only [beq_iff_eq]; omega : ¬ (t == 240) = true)]
    rw [if_neg (by simp only [beq_iff_eq]; omega : ¬ (t == 241) = true)]
    rw [Nat.shiftRight_eq_div_pow]
    norm_num
    have hc : t / 16 = 9 ∨ t / 16 = 10 ∨ t / 16 = 11 ∨ t / 16 = 12
        ∨ t / 16 = 13 ∨ t / 16 = 14 := by omega
    rcases hc with h | h | h | h | h | h <;> rw [h] <;> decide
  have hparse : parseFromBytes ver idx b = parseConnFields ver idx b.length b := by
    simp only [parseFromBytes, readVariableSizeField, hlen, List.take_length]
  have hot : (parseFromBytes ver idx b).otype = t := by
    rw [hparse, parseConnFields_otype, hb]
  refine ⟨hgen, by decide, by decide, by decide, by decide, ?_, hot, ?_⟩
  · rw [hparse, parseConnFields_raw_data]
  · unfold checkSanity
    rw [hot, hgen]

/-- Claim C6 witness at tag `0x90` (category 9). -/
theorem c6_variant_dispatch_witness :
    newConnectorObject 144 = .generic
    ∧ (parseFromBytes 7 0 [0, 4, 0, 144]).raw_data = [0, 4, 0, 144]
    ∧ checkSanity 7 (parseFromBytes 7 0 [0, 4, 0, 144]) = some true := by
  have h := c6_variant_dispatch 144 7 0 [0, 4, 0, 144]
    (by decide) (by decide) (by decide) (by decide)
  exact ⟨h.1, h.2.2.2.2.2.1, h.2.2.2.2.2.2.2⟩

/-- Claim C7: with the HasLabel flag set, `parseRSRCDataFinish` strips trailing
zero bytes, scans candidate positions `i` from `max(0, len-256)` to `len-1`,
and accepts the first `i` whose byte equals the remaining length minus one and
whose following bytes are all in the accepted set (CR, LF, or any byte ≥ 32);
when no candidate exists it stores an empty label with a warning, and a
candidate at `i > 0` still succeeds with only a warning — never a hard
failure. -/
theorem c7_label_recovery (oflags : Nat) (rest : Bytes)
    (h : hasLabelFlagSet oflags = true) :
    (∀ i, labelScanPos (wholeOf rest) = some i →
      ((wholeOf rest).length - 256 ≤ i ∧ i < (wholeOf rest).length
        ∧ acceptLabelAt (wholeOf rest) i = true
        ∧ (∀ j, (wholeOf rest).length - 256 ≤ j → j < i →
            acceptLabelAt (wholeOf rest) j = false)
        ∧ parseRSRCDataFinish oflags rest
            = (some ((wholeOf rest).drop (i+1)), false, decide (0 < i))))
    ∧ (labelScanPos (wholeOf rest) = none →
        (∀ j, (wholeOf rest).length - 256 ≤ j → j < (wholeOf rest).length →
          acceptLabelAt (wholeOf rest) j = false)
        ∧ parseRSRCDataFinish oflags rest = (some [], true, false)) := by
  constructor
  · intro i hi
    have hi2 : labelScanLoop (wholeOf rest) (wholeOf rest).length
        ((wholeOf rest).length - 256) = some i := hi
    obtain ⟨ha, hbnd, hacc, hmin⟩ := labelScanLoop_some_spec (wholeOf rest) _ _ _ hi2
    exact ⟨ha, hbnd, hacc, fun j hj1 hj2 => hmin j hj1 hj2,
      by simp [parseRSRCDataFinish, h, hi]⟩
  · intro hn
    have hn2 : labelScanLoop (wholeOf rest) (wholeOf rest).length
        ((wholeOf rest).length - 256) = none := hn
    exact ⟨fun j hj1 hj2 =>
        labelScanLoop_none_spec (wholeOf rest) _ _ hn2 (by omega) j hj1 hj2,
      by simp [parseRSRCDataFinish, h, hn]⟩

/-- Claim C7 witness: in the tail `[0, 1, 65]` the candidate is found at
position 1 (> 0), so the label is recovered with the not-adjacent warning and
no failure. -/
theorem c7_label_recovery_witness :
    parseRSRCDataFinish 64 [0, 1, 65] = (some [65], false, true) := by
  have h := ((c7_label_recovery 64 [0, 1, 65] (by decide)).1 1 (by decide)).2.2.2.2
  rw [h]
  decide

/-- The shared type table of the claim C8 scenario: a Number at index 0, a
String at index 1, an inner Cluster (client: the String) at index 2, and the
outer Cluster (clients: the Number and the inner Cluster) at index 3. -/
def classifTable : List Conn :=
  [parseFromBytes 7 0 [0, 5, 0, 1, 0],
   parseFromBytes 7 1 [0, 8, 0, 48, 255, 255, 255, 255],
   parseFromBytes 7 2 [0, 8, 0, 80, 0, 1, 0, 1],
   parseFromBytes 7 3 [0, 10, 0, 80, 0, 2, 0, 0, 0, 2]]

/-- Claim C8: classifying the outer Cluster (one Number client and one nested
Cluster that itself contains one String client) yields
`{number: [Number], path: [], string: [String], compound: [innerCluster],
other: []}` — the inner Cluster stays in `compound` while its String content
is flattened into the parent's `string` bucket. -/
theorem c8_client_classification :
    getClientConnectorsByType 7 classifTable 4
        (parseFromBytes 7 3 [0, 10, 0, 80, 0, 2, 0, 0, 0, 2])
      = some { number := [parseFromBytes 7 0 [0, 5, 0, 1, 0]],
               path := [],
               string := [parseFromBytes 7 1 [0, 8, 0, 48, 255, 255, 255, 255]],
               compound := [parseFromBytes 7 2 [0, 8, 0, 80, 0, 1, 0, 1]],
               other := [] } := by
  decide

/-- The Void record with label `[1, 65]` used to refute claim C1: its encode
output re-parses with a different label (the heuristic rejects the byte 1 as a
label start and accepts position 1 instead), so re-encoding shrinks it. -/
def voidLabeledConn : Conn :=
  { index := 0, oflags := 0, otype := 0, size := 0, raw_data := [],
    label := some [1, 65] }

/-- Claim C1 counterexample: `encode_to_bytes` produces the byte string
`[0, 8, 64, 0, 2, 1, 65, 0]` for a Void record labelled `[1, 65]`, but parsing
that byte string and re-encoding yields `[0, 6, 64, 0, 1, 65]` — the
round-trip is not byte-identical for every encode-produced input. -/
theorem c1_roundtrip_counterexample :
    encodeBytes voidLabeledConn = some [0, 8, 64, 0, 2, 1, 65, 0]
    ∧ encodeBytes (parseFromBytes 7 0 [0, 8, 64, 0, 2, 1, 65, 0])
        = some [0, 6, 64, 0, 1, 65]
    ∧ some [0, 6, 64, 0, 1, 65] ≠ some [0, 8, 64, 0, 2, 1, 65, 0] := by
  refine ⟨by decide, by decide, by decide⟩

/-- Claim C1 amended: the binary round-trip
`encode_to_bytes(parse_from_bytes(b)) = b` holds for every variant whenever
the encoded record carries no label; with a label present the heuristic label
recovery can split the bytes differently than they were written (see the
counterexample), so byte-identity is only guaranteed label-free. -/
theorem c1_roundtrip_no_label (ver : Nat) (idx : Int) (r : Conn) (b : Bytes)
    (henc : encodeBytes r = some b) (hlab : r.label = none) :
    encodeBytes (parseFromBytes ver idx b) = some b := by
  unfold encodeBytes at henc
  cases hp : prepareRSRCDataOf r with
  | none => rw [hp] at henc; cases henc
  | some data =>
  rw [hp, hlab] at henc
  simp only [prepareRSRCDataFinish, List.length_nil, List.append_nil, Nat.add_zero] at henc
  split at henc
  case isFalse => cases henc
  case isTrue hcond =>
  obtain ⟨hn, hf, ht⟩ := hcond
  rw [Option.some.injEq] at henc
  subst henc
  rw [parseFromBytes_head]
  have hfl : hasLabelFlagSet (r.oflags - (r.oflags &&& 64)) = false :=
    clearLabel_not_set r.oflags
  have hff : (r.oflags - (r.oflags &&& 64)) &&& 64 = 0 := clear64_bit r.oflags
  -- projections of the parsed record
  have hO : (parseConnFields ver idx (data.length + 4)
      (writeDataHead (r.oflags - (r.oflags &&& 64)) r.otype (data.length + 4) ++ data)).oflags
      = r.oflags - (r.oflags &&& 64) := by
    rw [parseConnFields_oflags, head_drop2]
    simp [beInt_one]
  have hT : (parseConnFields ver idx (data.length + 4)
      (writeDataHead (r.oflags - (r.oflags &&& 64)) r.otype (data.length + 4) ++ data)).otype
      = r.otype := by
    rw [parseConnFields_otype, head_drop2]
    simp [beInt_one]
  have hR : (parseConnFields ver idx (data.length + 4)
      (writeDataHead (r.oflags - (r.oflags &&& 64)) r.otype (data.length + 4) ++ data)).raw_data
      = writeDataHead (r.oflags - (r.oflags &&& 64)) r.otype (data.length + 4) ++ data :=
    parseConnFields_raw_data ver idx _ _
  have hL : (parseConnFields ver idx (data.length + 4)
      (writeDataHead (r.oflags - (r.oflags &&& 64)) r.otype (data.length + 4) ++ data)).label
      = none := by
    apply parseConnFields_label_clear
    rw [head_drop2]
    simp [beInt_one, hfl]
  have hBase : prepareRSRCDataBase
      (writeDataHead (r.oflags - (r.oflags &&& 64)) r.otype (data.length + 4) ++ data)
      (r.oflags - (r.oflags &&& 64)) = data := by
    simp [prepareRSRCDataBase, hfl, head_drop4]
  cases hk : newConnectorObject r.otype with
  | void =>
    simp only [prepareRSRCDataOf, hk] at hp
    rw [Option.some.injEq] at hp
    subst hp
    simp only [List.length_nil, List.append_nil, Nat.add_zero, Nat.zero_add]
      at hO hT hL hn ⊢
    simp only [encodeBytes, prepareRSRCDataOf, hT, hk, hL, hO, prepareRSRCDataFinish, hff,
      Nat.sub_zero, List.length_nil, List.append_nil, Nat.add_zero, Nat.zero_add]
    rw [if_pos ⟨hn, hf, ht⟩]
  | bool =>
    simp only [prepareRSRCDataOf, hk] at hp
    rw [Option.some.injEq] at hp
    subst hp
    simp only [List.length_nil, List.append_nil, Nat.add_zero, Nat.zero_add]
      at hO hT hL hn ⊢
    simp only [encodeBytes, prepareRSRCDataOf, hT, hk, hL, hO, prepareRSRCDataFinish, hff,
      Nat.sub_zero, List.length_nil, List.append_nil, Nat.add_zero, Nat.zero_add]
    rw [if_pos ⟨hn, hf, ht⟩]
  | number =>
    simp only [prepareRSRCDataOf, hk] at hp
    cases hpr : r.prop1 with
    | none => rw [hpr] at hp; cases hp
    | some p =>
    simp only [hpr] at hp
    by_cases hpl : p < 256
    · rw [if_pos hpl, Option.some.injEq] at hp
      subst hp
      have hPr : (parseConnFields ver idx ([p].length + 4)
          (writeDataHead (r.oflags - (r.oflags &&& 64)) r.otype ([p].length + 4) ++ [p])).prop1
          = some p := by
        rw [parseConnFields_prop1_number]
        · rw [head_drop2]
          simp [beInt_one]
        · rw [head_drop2]
          simp [beInt_one, hk]
      simp only [encodeBytes, prepareRSRCDataOf, hT, hk, hPr, hL, hO, prepareRSRCDataFinish,
        hff, Nat.sub_zero, List.length_nil, List.append_nil, Nat.add_zero, hpl, ite_true]
      rw [if_pos ⟨hn, hf, ht⟩]
    · rw [if_neg hpl] at hp; cases hp
  | numberPtr =>
    simp only [prepareRSRCDataOf, hk] at hp
    rw [Option.some.injEq] at hp
    simp only [encodeBytes, prepareRSRCDataOf, hT, hk, hR, hO, hBase, hL,
      prepareRSRCDataFinish, hff, Nat.sub_zero, List.length_nil, List.append_nil, Nat.add_zero]
    rw [if_pos ⟨hn, hf, ht⟩]
  | blob =>
    simp only [prepareRSRCDataOf, hk] at hp
    rw [Option.some.injEq] at hp
    simp only [encodeBytes, prepareRSRCDataOf, hT, hk, hR, hO, hBase, hL,
      prepareRSRCDataFinish, hff, Nat.sub_zero, List.length_nil, List.append_nil, Nat.add_zero]
    rw [if_pos ⟨hn, hf, ht⟩]
  | function =>
    simp only [prepareRSRCDataOf, hk] at hp
    rw [Option.some.injEq] at hp
    simp only [encodeBytes, prepareRSRCDataOf, hT, hk, hR, hO, hBase, hL,
      prepareRSRCDataFinish, hff, Nat.sub_zero, List.length_nil, List.append_nil, Nat.add_zero]
    rw [if_pos ⟨hn, hf, ht⟩]
  | typeDef =>
    simp only [prepareRSRCDataOf, hk] at hp
    rw [Option.some.injEq] at hp
    simp only [encodeBytes, prepareRSRCDataOf, hT, hk, hR, hO, hBase, hL,
      prepareRSRCDataFinish, hff, Nat.sub_zero, List.length_nil, List.append_nil, Nat.add_zero]
    rw [if_pos ⟨hn, hf, ht⟩]
  | array =>
    simp only [prepareRSRCDataOf, hk] at hp
    rw [Option.some.injEq] at hp
    simp only [encodeBytes, prepareRSRCDataOf, hT, hk, hR, hO, hBase, hL,
      prepareRSRCDataFinish, hff, Nat.sub_zero, List.length_nil, List.append_nil, Nat.add_zero]
    rw [if_pos ⟨hn, hf, ht⟩]
  | unit =>
    simp only [prepareRSRCDataOf, hk] at hp
    rw [Option.some.injEq] at hp
    simp only [encodeBytes, prepareRSRCDataOf, hT, hk, hR, hO, hBase, hL,
      prepareRSRCDataFinish, hff, Nat.sub_zero, List.length_nil, List.append_nil, Nat.add_zero]
    rw [if_pos ⟨hn, hf, ht⟩]
  | ref =>
    simp only [prepareRSRCDataOf, hk] at hp
    rw [Option.some.injEq] at hp
    simp only [encodeBytes, prepareRSRCDataOf, hT, hk, hR, hO, hBase, hL,
      prepareRSRCDataFinish, hff, Nat.sub_zero, List.length_nil, List.append_nil, Nat.add_zero]
    rw [if_pos ⟨hn, hf, ht⟩]
  | cluster =>
    simp only [prepareRSRCDataOf, hk] at hp
    rw [Option.some.injEq] at hp
    simp only [encodeBytes, prepareRSRCDataOf, hT, hk, hR, hO, hBase, hL,
      prepareRSRCDataFinish, hff, Nat.sub_zero, List.length_nil, List.append_nil, Nat.add_zero]
    rw [if_pos ⟨hn, hf, ht⟩]
  | generic =>
    simp only [prepareRSRCDataOf, hk] at hp
    rw [Option.some.injEq] at hp
    simp only [encodeBytes, prepareRSRCDataOf, hT, hk, hR, hO, hBase, hL,
      prepareRSRCDataFinish, hff, Nat.sub_zero, List.length_nil, List.append_nil, Nat.add_zero]
    rw [if_pos ⟨hn, hf, ht⟩]

/-- Claim C1 amended, witness: a label-free Cluster record round-trips
byte-identically. -/
theorem c1_roundtrip_no_label_witness :
    encodeBytes (parseFromBytes 7 7 [0, 10, 0, 80, 0, 2, 0, 2, 0, 5])
      = some [0, 10, 0, 80, 0, 2, 0, 2, 0, 5] :=
  c1_roundtrip_no_label 7 7 (parseFromBytes 7 7 [0, 10, 0, 80, 0, 2, 0, 2, 0, 5])
    [0, 10, 0, 80, 0, 2, 0, 2, 0, 5] (by decide) (by decide)
